import Mathlib

/-!
Shallow embedding of the Playbook detail-view component
(src/webapp/src/components/backstage/automation/styles.tsx): its data model,
the fetch effect (`fetchData`), the permissions describer, and the render
function, together with theorems settling the specification claims.
-/

namespace Playbooks

/-- A team, the read-only projection looked up from the host store
(`getTeam`); the component reads `team.name`. -/
structure Team where
  name : String
  display_name : String
deriving DecidableEq

/-- The playbook resource (`PlaybookWithChecklist`): the fields this view
reads.  `delete_at = 0` means the playbook is active. -/
structure PlaybookWithChecklist where
  id : String
  title : String
  team_id : String
  member_ids : List String
  delete_at : Nat
deriving DecidableEq

/-- `FetchingStateType.loading = 'loading'` from the source. -/
def FetchingStateType.loading : String := "loading"

/-- `FetchingStateType.fetched = 'fetched'` from the source. -/
def FetchingStateType.fetched : String := "fetched"

/-- `FetchingStateType.notFound = 'notfound'` from the source. -/
def FetchingStateType.notFound : String := "notfound"

/-- The component-local state pair: `useState<PlaybookWithChecklist|null>`
and the `fetchingState` string. -/
structure ComponentState where
  playbook : Option PlaybookWithChecklist
  fetchingState : String
deriving DecidableEq

/-- Initial hook values: `useState(null)` and
`useState(FetchingStateType.loading)`. -/
def initialState : ComponentState :=
  { playbook := none, fetchingState := FetchingStateType.loading }

/-- Outcome of `clientFetchPlaybook`: a rejection carrying some error
description, or a resolution carrying the playbook value (which the client
may resolve as null/undefined, hence `Option`). -/
def FetchResult : Type := Except String (Option PlaybookWithChecklist)

/-- Whether the effect issues a fetch at all: the `if (playbookId)` guard,
where a string is truthy exactly when non-empty. -/
def fetchIssued (playbookId : String) : Bool :=
  playbookId != ""

/-- The `fetchData` effect body: when `playbookId` is truthy, a resolved
fetch runs `setPlaybook(fetchedPlaybook!)` then
`setFetchingState(fetched)`; a rejection runs only
`setFetchingState(notFound)` (the error binding is discarded).  With a
falsy id nothing happens. -/
def fetchData (playbookId : String) (result : Except String (Option PlaybookWithChecklist))
    (s : ComponentState) : ComponentState :=
  if playbookId ≠ "" then
    match result with
    | Except.ok fetchedPlaybook =>
        { s with playbook := fetchedPlaybook, fetchingState := FetchingStateType.fetched }
    | Except.error _ =>
        { s with fetchingState := FetchingStateType.notFound }
  else
    s

/-- Modelled from the spec: `ErrorPageTypes.PLAYBOOKS` lives in
src/constants, which is not part of this slice; the e2e test in this slice
pins the resulting query tag to `playbooks`. -/
def ErrorPageTypes.PLAYBOOKS : String := "playbooks"

/-- Modelled from the spec: `pluginErrorUrl` lives in src/browser_routing,
which is not part of this slice; it builds the generic error URL tagged
with a feature error type, and the e2e test in this slice pins the shape
to `/playbooks/error?type=playbooks`. -/
def pluginErrorUrl (errorType : String) : String :=
  "/playbooks/error?type=" ++ errorType

/-- The (icon, text) pair the permissions branch computes. -/
structure AccessDescription where
  subTitle : String
  accessIconClass : String
deriving DecidableEq

/-- The four-way `if`/`else` chain computing `subTitle` and
`accessIconClass` from `playbook.member_ids.length` and the (possibly
missing) team. -/
def accessDescription (playbook : PlaybookWithChecklist) (team : Option Team) :
    AccessDescription :=
  if playbook.member_ids.length == 1 then
    { subTitle := "Only you can access this playbook"
      accessIconClass := "icon-lock-outline" }
  else if playbook.member_ids.length > 1 then
    { subTitle := toString playbook.member_ids.length ++ " people can access this playbook"
      accessIconClass := "icon-lock-outline" }
  else
    match team with
    | some team =>
        { subTitle := "Everyone in " ++ team.name ++ " can access this playbook"
          accessIconClass := "icon-globe" }
    | none =>
        { subTitle := "Everyone in this team can access this playbook"
          accessIconClass := "icon-globe" }

/-- `const enableRunPlaybook = playbook?.delete_at === 0`. -/
def enableRunPlaybook (playbook : PlaybookWithChecklist) : Bool :=
  playbook.delete_at == 0

/-- The sub-path the router matched below the playbook base path. -/
inductive SubRoute where
  | root
  | preview
  | usage
deriving DecidableEq

/-- What the lower part of the view renders: a `PlaybookUsage` panel for a
given playbook id, a `Redirect` to a URL, or the preview placeholder. -/
inductive BodyView where
  | playbookUsage (playbookId : String)
  | redirectTo (url : String)
  | underConstruction
deriving DecidableEq

/-- `(!experimentalFeaturesEnabled && <PlaybookUsage/>) || <tabbed/>`: with
the flag off the usage panel renders directly; with it on the `Switch`
redirects the exact root match to `match.url + '/usage'` and routes the two
leaf paths. -/
def renderBody (experimentalFeaturesEnabled : Bool) (playbook : PlaybookWithChecklist)
    (matchUrl : String) (route : SubRoute) : BodyView :=
  if !experimentalFeaturesEnabled then
    BodyView.playbookUsage playbook.id
  else
    match route with
    | SubRoute.root => BodyView.redirectTo (matchUrl ++ "/usage")
    | SubRoute.preview => BodyView.underConstruction
    | SubRoute.usage => BodyView.playbookUsage playbook.id

/-- The observable pieces of the main (playbook non-null, fetched) return
value of the component. -/
structure ContentView where
  title : String
  subTitle : String
  accessIconClass : String
  runDisabled : Bool
  dataTestIds : List String
  body : BodyView
deriving DecidableEq

/-- The main return value: title, the permissions description block
(data-testid `playbookPermissionsDescription`), the run button
(data-testid `run-playbook`, `disabled = !enableRunPlaybook`), and the
body.  The listed test ids are exactly those appearing in the JSX. -/
def renderContent (playbook : PlaybookWithChecklist) (team : Option Team)
    (experimentalFeaturesEnabled : Bool) (matchUrl : String) (route : SubRoute) :
    ContentView :=
  let access := accessDescription playbook team
  { title := playbook.title
    subTitle := access.subTitle
    accessIconClass := access.accessIconClass
    runDisabled := !(enableRunPlaybook playbook)
    dataTestIds := ["playbookPermissionsDescription", "run-playbook"]
    body := renderBody experimentalFeaturesEnabled playbook matchUrl route }

/-- The three possible component return values. -/
inductive RenderResult where
  | nullRender
  | redirect (url : String)
  | content (view : ContentView)
deriving DecidableEq

/-- The component render: `loading` returns null; `notFound` or a null
playbook returns the error redirect; otherwise the content renders from the
(non-null) playbook.  The `none` arm of the final match is unreachable
because the preceding guard already returned the redirect. -/
def render (s : ComponentState) (team : Option Team) (experimentalFeaturesEnabled : Bool)
    (matchUrl : String) (route : SubRoute) : RenderResult :=
  if s.fetchingState = FetchingStateType.loading then
    RenderResult.nullRender
  else if s.fetchingState = FetchingStateType.notFound ∨ s.playbook = none then
    RenderResult.redirect (pluginErrorUrl ErrorPageTypes.PLAYBOOKS)
  else
    match s.playbook with
    | some playbook =>
        RenderResult.content
          (renderContent playbook team experimentalFeaturesEnabled matchUrl route)
    | none => RenderResult.redirect (pluginErrorUrl ErrorPageTypes.PLAYBOOKS)

/-- A concrete playbook used by closed witnesses and counterexamples. -/
def samplePlaybook : PlaybookWithChecklist :=
  { id := "pb1", title := "Public Playbook", team_id := "team1"
    member_ids := [], delete_at := 0 }

/-- Helper: a state whose fetchingState is `fetched` is neither `loading`
nor `notFound`, so with a non-null playbook the content branch renders. -/
theorem render_fetched (s : ComponentState) (team : Option Team) (exp : Bool)
    (url : String) (route : SubRoute) (p : PlaybookWithChecklist)
    (hf : s.fetchingState = FetchingStateType.fetched) (hp : s.playbook = some p) :
    render s team exp url route = RenderResult.content (renderContent p team exp url route) := by
  simp [render, hf, hp, FetchingStateType.fetched, FetchingStateType.loading,
    FetchingStateType.notFound]

/-- Helper: a notFound state always renders the error redirect. -/
theorem render_notFound (s : ComponentState) (team : Option Team) (exp : Bool)
    (url : String) (route : SubRoute)
    (h : s.fetchingState = FetchingStateType.notFound) :
    render s team exp url route =
      RenderResult.redirect (pluginErrorUrl ErrorPageTypes.PLAYBOOKS) := by
  have hne : s.fetchingState ≠ FetchingStateType.loading := by
    rw [h]; decide
  simp [render, hne, h]
  decide

/-- Helper: a non-loading state with an absent playbook renders the error
redirect. -/
theorem render_absent (s : ComponentState) (team : Option Team) (exp : Bool)
    (url : String) (route : SubRoute)
    (hne : s.fetchingState ≠ FetchingStateType.loading) (hp : s.playbook = none) :
    render s team exp url route =
      RenderResult.redirect (pluginErrorUrl ErrorPageTypes.PLAYBOOKS) := by
  simp [render, hne, hp]

/-- Claim C1, counterexample: in the initial state the playbook is absent
(null) yet the render is the null placeholder, not the redirect-to-error
state, because the loading check comes first. -/
theorem C1_counterexample :
    initialState.playbook = none ∧
    render initialState none false "/playbooks/playbooks/pb1" SubRoute.root =
      RenderResult.nullRender ∧
    render initialState none false "/playbooks/playbooks/pb1" SubRoute.root ≠
      RenderResult.redirect (pluginErrorUrl ErrorPageTypes.PLAYBOOKS) := by
  refine ⟨rfl, rfl, ?_⟩
  decide

/-- Claim C1 (amended): no playbook-derived content renders while
fetchingState is loading (the render is null); the redirect-to-error state
renders whenever fetchingState is notFound, and whenever fetchingState is
not loading and the stored playbook is absent. -/
theorem C1_loading_null_and_error_redirect (s : ComponentState) (team : Option Team)
    (exp : Bool) (url : String) (route : SubRoute) :
    (s.fetchingState = FetchingStateType.loading →
      render s team exp url route = RenderResult.nullRender) ∧
    (s.fetchingState = FetchingStateType.notFound →
      render s team exp url route =
        RenderResult.redirect (pluginErrorUrl ErrorPageTypes.PLAYBOOKS)) ∧
    (s.fetchingState ≠ FetchingStateType.loading → s.playbook = none →
      render s team exp url route =
        RenderResult.redirect (pluginErrorUrl ErrorPageTypes.PLAYBOOKS)) :=
  ⟨fun h => by simp [render, h],
   fun h => render_notFound s team exp url route h,
   fun h hp => render_absent s team exp url route h hp⟩

/-- Claim C1 witness: the amended theorem applied at a notFound state and
at a loading state. -/
theorem C1_witness :
    render { playbook := none, fetchingState := FetchingStateType.notFound }
        none true "u" SubRoute.root =
      RenderResult.redirect (pluginErrorUrl ErrorPageTypes.PLAYBOOKS) ∧
    render initialState none true "u" SubRoute.root = RenderResult.nullRender :=
  ⟨(C1_loading_null_and_error_redirect
      { playbook := none, fetchingState := FetchingStateType.notFound }
      none true "u" SubRoute.root).2.1 rfl,
   (C1_loading_null_and_error_redirect initialState none true "u" SubRoute.root).1 rfl⟩

/-- Claim C2: the fetch status starts as loading; with a truthy id a
resolved fetch stores the result and sets fetched; a rejected fetch sets
notFound, leaves the stored playbook unchanged, and the state does not
depend on which error occurred. -/
theorem C2_fetch_status_lifecycle (s : ComponentState) (id e : String)
    (pb : Option PlaybookWithChecklist) (h : id ≠ "") :
    initialState.fetchingState = FetchingStateType.loading ∧
    fetchData id (Except.ok pb) s =
      { s with playbook := pb, fetchingState := FetchingStateType.fetched } ∧
    (fetchData id (Except.error e) s).fetchingState = FetchingStateType.notFound ∧
    (fetchData id (Except.error e) s).playbook = s.playbook ∧
    fetchData id (Except.error e) s = fetchData id (Except.error "") s := by
  refine ⟨rfl, ?_, ?_, ?_, ?_⟩ <;> simp [fetchData, h]

/-- Claim C2 witness: the lifecycle theorem at a concrete id, error and
playbook. -/
theorem C2_witness :
    initialState.fetchingState = FetchingStateType.loading ∧
    fetchData "pb1" (Except.ok (some samplePlaybook)) initialState =
      { initialState with
        playbook := some samplePlaybook
        fetchingState := FetchingStateType.fetched } ∧
    (fetchData "pb1" (Except.error "network") initialState).fetchingState =
      FetchingStateType.notFound ∧
    (fetchData "pb1" (Except.error "network") initialState).playbook =
      initialState.playbook ∧
    fetchData "pb1" (Except.error "network") initialState =
      fetchData "pb1" (Except.error "") initialState :=
  C2_fetch_status_lifecycle initialState "pb1" "network" (some samplePlaybook) (by decide)

/-- Claim C3: any fetch failure, whatever the error, collapses the status
to notFound, and the subsequent render is the redirect to the generic
error URL tagged with this feature error type (playbooks). -/
theorem C3_failure_redirects_to_error (s : ComponentState) (team : Option Team)
    (exp : Bool) (url : String) (route : SubRoute) (id e : String) (h : id ≠ "") :
    (fetchData id (Except.error e) s).fetchingState = FetchingStateType.notFound ∧
    render (fetchData id (Except.error e) s) team exp url route =
      RenderResult.redirect (pluginErrorUrl ErrorPageTypes.PLAYBOOKS) ∧
    pluginErrorUrl ErrorPageTypes.PLAYBOOKS = "/playbooks/error?type=playbooks" := by
  have hs : (fetchData id (Except.error e) s).fetchingState = FetchingStateType.notFound := by
    simp [fetchData, h]
  exact ⟨hs, render_notFound (fetchData id (Except.error e) s) team exp url route hs, rfl⟩

/-- Claim C3 witness: an unknown identifier whose fetch rejects lands on
the tagged error redirect. -/
theorem C3_witness :
    (fetchData "an_unknown_id" (Except.error "not found") initialState).fetchingState =
      FetchingStateType.notFound ∧
    render (fetchData "an_unknown_id" (Except.error "not found") initialState)
        none false "u" SubRoute.root =
      RenderResult.redirect (pluginErrorUrl ErrorPageTypes.PLAYBOOKS) ∧
    pluginErrorUrl ErrorPageTypes.PLAYBOOKS = "/playbooks/error?type=playbooks" :=
  C3_failure_redirects_to_error initialState none false "u" SubRoute.root
    "an_unknown_id" "not found" (by decide)

/-- Claim C4: member-count 1 gives exactly the only-you text with the lock
icon, member-count above 1 exactly the N-people text with the lock icon,
for every team value (the count branches come before the team fallback). -/
theorem C4_private_access_description (p : PlaybookWithChecklist) (team : Option Team)
    (exp : Bool) (url : String) (route : SubRoute) :
    (p.member_ids.length = 1 →
      (renderContent p team exp url route).subTitle = "Only you can access this playbook" ∧
      (renderContent p team exp url route).accessIconClass = "icon-lock-outline") ∧
    (p.member_ids.length > 1 →
      (renderContent p team exp url route).subTitle =
        toString p.member_ids.length ++ " people can access this playbook" ∧
      (renderContent p team exp url route).accessIconClass = "icon-lock-outline") := by
  constructor
  · intro h1
    constructor <;> simp [renderContent, accessDescription, h1]
  · intro h2
    have hne : ¬(p.member_ids.length == 1) = true := by
      simp
      omega
    constructor <;> simp [renderContent, accessDescription, hne, h2]

/-- Claim C4 witness: a one-member playbook and a two-member playbook, the
team both known and unknown. -/
theorem C4_witness :
    (renderContent { samplePlaybook with member_ids := ["u1"] }
        (some { name := "Foo", display_name := "Foo Team" }) true "u"
        SubRoute.root).subTitle = "Only you can access this playbook" ∧
    (renderContent { samplePlaybook with member_ids := ["u1", "u2"] } none true "u"
        SubRoute.root).subTitle = "2 people can access this playbook" ∧
    (renderContent { samplePlaybook with member_ids := ["u1", "u2"] } none true "u"
        SubRoute.root).accessIconClass = "icon-lock-outline" :=
  ⟨((C4_private_access_description { samplePlaybook with member_ids := ["u1"] }
      (some { name := "Foo", display_name := "Foo Team" }) true "u"
      SubRoute.root).1 (by decide)).1,
   ((C4_private_access_description { samplePlaybook with member_ids := ["u1", "u2"] }
      none true "u" SubRoute.root).2 (by decide)).1,
   ((C4_private_access_description { samplePlaybook with member_ids := ["u1", "u2"] }
      none true "u" SubRoute.root).2 (by decide)).2⟩

/-- Claim C5: member-count 0 with a known team gives exactly the
everyone-in-team-name text with the globe icon, and with an unknown team
exactly the everyone-in-this-team text with the globe icon. -/
theorem C5_public_access_description (p : PlaybookWithChecklist) (t : Team)
    (exp : Bool) (url : String) (route : SubRoute) (h : p.member_ids.length = 0) :
    (renderContent p (some t) exp url route).subTitle =
      "Everyone in " ++ t.name ++ " can access this playbook" ∧
    (renderContent p (some t) exp url route).accessIconClass = "icon-globe" ∧
    (renderContent p none exp url route).subTitle =
      "Everyone in this team can access this playbook" ∧
    (renderContent p none exp url route).accessIconClass = "icon-globe" := by
  refine ⟨?_, ?_, ?_, ?_⟩ <;> simp [renderContent, accessDescription, h]

/-- Claim C5 witness: a zero-member playbook with the team named Foo, and
with no team. -/
theorem C5_witness :
    (renderContent samplePlaybook (some { name := "Foo", display_name := "Foo Team" })
        false "u" SubRoute.usage).subTitle =
      "Everyone in Foo can access this playbook" ∧
    (renderContent samplePlaybook (some { name := "Foo", display_name := "Foo Team" })
        false "u" SubRoute.usage).accessIconClass = "icon-globe" ∧
    (renderContent samplePlaybook none false "u" SubRoute.usage).subTitle =
      "Everyone in this team can access this playbook" ∧
    (renderContent samplePlaybook none false "u" SubRoute.usage).accessIconClass =
      "icon-globe" :=
  C5_public_access_description samplePlaybook { name := "Foo", display_name := "Foo Team" }
    false "u" SubRoute.usage (by decide)

/-- Claim C6: for a fetched playbook the run control is disabled exactly
when the deletion timestamp is non-zero, and enabled when it is zero. -/
theorem C6_run_disabled_iff_archived (s : ComponentState) (team : Option Team)
    (exp : Bool) (url : String) (route : SubRoute) (p : PlaybookWithChecklist)
    (hf : s.fetchingState = FetchingStateType.fetched) (hp : s.playbook = some p) :
    render s team exp url route = RenderResult.content (renderContent p team exp url route) ∧
    ((renderContent p team exp url route).runDisabled = true ↔ p.delete_at ≠ 0) ∧
    (p.delete_at = 0 → (renderContent p team exp url route).runDisabled = false) := by
  refine ⟨render_fetched s team exp url route p hf hp, ?_, ?_⟩
  · simp [renderContent, enableRunPlaybook]
  · intro h0
    simp [renderContent, enableRunPlaybook, h0]

/-- Claim C6 witness: an archived playbook (deletion timestamp 5) renders
the run control disabled, an active one enabled. -/
theorem C6_witness :
    render { playbook := some { samplePlaybook with delete_at := 5 }
             fetchingState := FetchingStateType.fetched } none false "u" SubRoute.root =
      RenderResult.content (renderContent { samplePlaybook with delete_at := 5 }
        none false "u" SubRoute.root) ∧
    (renderContent { samplePlaybook with delete_at := 5 } none false "u"
      SubRoute.root).runDisabled = true ∧
    (renderContent samplePlaybook none false "u" SubRoute.root).runDisabled = false :=
  ⟨(C6_run_disabled_iff_archived _ none false "u" SubRoute.root
      { samplePlaybook with delete_at := 5 } rfl rfl).1,
   ((C6_run_disabled_iff_archived
      { playbook := some { samplePlaybook with delete_at := 5 }
        fetchingState := FetchingStateType.fetched } none false "u" SubRoute.root
      { samplePlaybook with delete_at := 5 } rfl rfl).2.1).mpr (by decide),
   (C6_run_disabled_iff_archived
      { playbook := some samplePlaybook, fetchingState := FetchingStateType.fetched }
      none false "u" SubRoute.root samplePlaybook rfl rfl).2.2 rfl⟩

/-- Claim C7, counterexample: with experimental features disabled, a
fetched playbook at the root path renders the usage panel directly, not a
redirect to the usage sub-path. -/
theorem C7_counterexample :
    render { playbook := some samplePlaybook, fetchingState := FetchingStateType.fetched }
        none false "/playbooks/playbooks/pb1" SubRoute.root =
      RenderResult.content (renderContent samplePlaybook none false
        "/playbooks/playbooks/pb1" SubRoute.root) ∧
    (renderContent samplePlaybook none false "/playbooks/playbooks/pb1"
        SubRoute.root).body = BodyView.playbookUsage "pb1" ∧
    (renderContent samplePlaybook none false "/playbooks/playbooks/pb1"
        SubRoute.root).body ≠ BodyView.redirectTo "/playbooks/playbooks/pb1/usage" := by
  refine ⟨?_, rfl, ?_⟩ <;> decide

/-- Claim C7 (amended): with experimental features enabled, a fetched
playbook at the root path renders a redirect to the usage sub-path, and the
redirect is the same on every visit to the same base path, whatever the
playbook or team. -/
theorem C7_root_redirects_to_usage (s : ComponentState) (team : Option Team)
    (url : String) (p : PlaybookWithChecklist) (q : PlaybookWithChecklist)
    (team2 : Option Team)
    (hf : s.fetchingState = FetchingStateType.fetched) (hp : s.playbook = some p) :
    render s team true url SubRoute.root =
      RenderResult.content (renderContent p team true url SubRoute.root) ∧
    (renderContent p team true url SubRoute.root).body =
      BodyView.redirectTo (url ++ "/usage") ∧
    (renderContent q team2 true url SubRoute.root).body =
      (renderContent p team true url SubRoute.root).body :=
  ⟨render_fetched s team true url SubRoute.root p hf hp, rfl, rfl⟩

/-- Claim C7 witness: the amended theorem at two concrete playbooks on the
same base path. -/
theorem C7_witness :
    render { playbook := some samplePlaybook, fetchingState := FetchingStateType.fetched }
        none true "/playbooks/playbooks/pb1" SubRoute.root =
      RenderResult.content (renderContent samplePlaybook none true
        "/playbooks/playbooks/pb1" SubRoute.root) ∧
    (renderContent samplePlaybook none true "/playbooks/playbooks/pb1"
        SubRoute.root).body = BodyView.redirectTo "/playbooks/playbooks/pb1/usage" ∧
    (renderContent { samplePlaybook with title := "Other" } none true
        "/playbooks/playbooks/pb1" SubRoute.root).body =
      (renderContent samplePlaybook none true "/playbooks/playbooks/pb1"
        SubRoute.root).body :=
  C7_root_redirects_to_usage
    { playbook := some samplePlaybook, fetchingState := FetchingStateType.fetched }
    none "/playbooks/playbooks/pb1" samplePlaybook
    { samplePlaybook with title := "Other" } none rfl rfl

/-- Claim C8: the component JSX carries exactly the test ids
playbookPermissionsDescription and run-playbook; archived-badge and
edit-playbook, which the claim and the e2e suite expect, do not appear in
the rendered output for any fetched playbook, here evaluated at a concrete
one. -/
theorem C8_rendered_testids :
    (renderContent samplePlaybook none false "u" SubRoute.root).dataTestIds =
      ["playbookPermissionsDescription", "run-playbook"] ∧
    "playbookPermissionsDescription" ∈
      (renderContent samplePlaybook none false "u" SubRoute.root).dataTestIds ∧
    "run-playbook" ∈
      (renderContent samplePlaybook none false "u" SubRoute.root).dataTestIds ∧
    "archived-badge" ∉
      (renderContent samplePlaybook none false "u" SubRoute.root).dataTestIds ∧
    "edit-playbook" ∉
      (renderContent samplePlaybook none false "u" SubRoute.root).dataTestIds := by
  refine ⟨rfl, ?_, ?_, ?_, ?_⟩ <;> decide

/-- Claim C9: with an empty route identifier no fetch is issued, any
sequence of fetch outcomes leaves the state at its initial value, the
status stays loading, and the render stays null. -/
theorem C9_empty_id_stays_loading (results : List (Except String (Option PlaybookWithChecklist)))
    (team : Option Team) (exp : Bool) (url : String) (route : SubRoute) :
    fetchIssued "" = false ∧
    results.foldl (fun s r => fetchData "" r s) initialState = initialState ∧
    initialState.fetchingState = FetchingStateType.loading ∧
    render initialState team exp url route = RenderResult.nullRender := by
  have hid : ∀ (r : Except String (Option PlaybookWithChecklist)) (s : ComponentState),
      fetchData "" r s = s := by
    intro r s
    simp [fetchData]
  refine ⟨rfl, ?_, rfl, rfl⟩
  induction results with
  | nil => rfl
  | cons r rs ih => simp [List.foldl, hid, ih]

/-- Claim C10: a fetch resolving with a null playbook still sets the
status to fetched and stores the null value, the render is then the error
redirect, and no state with an absent playbook ever reaches the content
branch. -/
theorem C10_null_resolution_redirects (s : ComponentState) (team : Option Team)
    (exp : Bool) (url : String) (route : SubRoute) (id : String) (h : id ≠ "") :
    (fetchData id (Except.ok none) s).fetchingState = FetchingStateType.fetched ∧
    (fetchData id (Except.ok none) s).playbook = none ∧
    render (fetchData id (Except.ok none) s) team exp url route =
      RenderResult.redirect (pluginErrorUrl ErrorPageTypes.PLAYBOOKS) ∧
    (∀ s2 : ComponentState, s2.playbook = none → ∀ v : ContentView,
      render s2 team exp url route ≠ RenderResult.content v) := by
  have hstate : fetchData id (Except.ok none) s =
      { s with playbook := none, fetchingState := FetchingStateType.fetched } := by
    simp [fetchData, h]
  have habsent : ∀ s2 : ComponentState, s2.playbook = none → ∀ v : ContentView,
      render s2 team exp url route ≠ RenderResult.content v := by
    intro s2 hp v
    by_cases hl : s2.fetchingState = FetchingStateType.loading
    · simp [render, hl]
    · rw [render_absent s2 team exp url route hl hp]
      simp
  refine ⟨by rw [hstate], by rw [hstate], ?_, habsent⟩
  apply render_absent
  · rw [hstate]
    decide
  · rw [hstate]

/-- Claim C10 witness: a null resolution for a concrete id from the
initial state. -/
theorem C10_witness :
    (fetchData "pb1" (Except.ok none) initialState).fetchingState =
      FetchingStateType.fetched ∧
    (fetchData "pb1" (Except.ok none) initialState).playbook = none ∧
    render (fetchData "pb1" (Except.ok none) initialState) none false "u" SubRoute.root =
      RenderResult.redirect (pluginErrorUrl ErrorPageTypes.PLAYBOOKS) ∧
    (∀ s2 : ComponentState, s2.playbook = none → ∀ v : ContentView,
      render s2 none false "u" SubRoute.root ≠ RenderResult.content v) :=
  C10_null_resolution_redirects initialState none false "u" SubRoute.root "pb1" (by decide)

end Playbooks
